import Mathlib

/-!
# snapd-desktop-integration: the refresh-window state machine

A shallow embedding of `src/refresh_status.c`.

* C strings are NUL-free, so a `const gchar *` that the code dereferences is a
  `String`; `*s == 0` and `strlen(s) == 0` are `s = ""`.  A pointer that the
  code tests against `NULL` is an `Option`.
* A `SdiRefreshState *` that lives in `ds_state->refreshing_list` is the index
  of the window in that array.
* The GTK widgets reachable from a window are records of the properties that
  the code sets.  Stacking order and focus belong to the window manager and
  are not part of a window's state.
* Everything the code asks the outside world (the file system, the image
  loader, the desktop-file parser, the main loop) is read from an `Env`, and
  the result of `stat` on the lock file is an argument of the poll tick.
-/

namespace RefreshStatus

/-! ## Values -/

/-- A `gdouble`, kept as its IEEE-754 bit pattern: the code never computes
with one, it only hands it to the progress bar. -/
structure gdouble where
  bits : Nat
deriving DecidableEq, Repr

/-- The value of one `{sv}` entry of `extra_params`. -/
inductive GVariant where
  | string (s : String)
  | boolean (b : Bool)
  | int32 (n : Int)
  | double (d : gdouble)
deriving DecidableEq, Repr

/-- GLib's `g_variant_get_string(value, NULL)`: the string of a string
variant, `NULL` for a variant of any other type. -/
def g_variant_get_string : GVariant → Option String
  | .string s => some s
  | _ => none

/-- The return value of a `GSourceFunc`. -/
inductive gboolean where
  | G_SOURCE_REMOVE
  | G_SOURCE_CONTINUE
deriving DecidableEq, Repr

/-- Value of `ENOENT` in `<errno.h>`. -/
def ENOENT : Nat := 2

/-- Value of `ENOTDIR` in `<errno.h>`. -/
def ENOTDIR : Nat := 20

/-- What `stat(state->lock_file, &statbuf)` observes: success with
`statbuf.st_size`, or failure with `errno`. -/
inductive StatResult where
  | ok (st_size : Int)
  | error (errno : Nat)
deriving DecidableEq, Repr

/-! ## Widgets -/

/-- What a `GtkImage` shows. -/
inductive ImageSource where
  | empty
  | icon_name (name : String)
  | pixbuf (path : String) (width height : Int)
deriving DecidableEq, Repr

/-- The `main_window` object. -/
structure GtkApplicationWindow where
  title : Option String
  visible : Bool
deriving DecidableEq, Repr

/-- The `progress_bar` object: `fraction`, `show_text` and `text` hold the
argument of the last `gtk_progress_bar_set_fraction`, `_set_show_text` and
`_set_text` call, `pulses` counts the calls of `gtk_progress_bar_pulse`. -/
structure GtkProgressBar where
  fraction : gdouble
  show_text : Bool
  text : Option String
  pulses : Nat
deriving DecidableEq, Repr

/-- The `app_label` object. -/
structure GtkLabel where
  text : String
deriving DecidableEq, Repr

/-- The `app_icon` object. -/
structure GtkImage where
  visible : Bool
  image : ImageSource
deriving DecidableEq, Repr

/-- The objects `gtk_builder_get_object` returns for a fresh
`snap_is_being_refreshed_gtk4.ui` (the resource is not part of the sources). -/
structure GtkBuilder where
  main_window : GtkApplicationWindow
  app_label : GtkLabel
  progress_bar : GtkProgressBar
  app_icon : GtkImage

/-! ## State -/

/-- The C `struct _SdiRefreshState` (its `ds_state` back pointer is the
registry the window is stored in). -/
structure SdiRefreshState where
  app_name : String
  window : GtkApplicationWindow
  progress_bar : GtkProgressBar
  message : GtkLabel
  icon : GtkImage
  lock_file : Option String
  timeout_id : Nat
  close_id : Nat
  pulsed : Bool
  wait_change_in_lock_file : Bool
deriving DecidableEq, Repr

/-- The part of `DsState` this file uses: the `GPtrArray` of open windows. -/
structure DsState where
  refreshing_list : List SdiRefreshState
deriving DecidableEq, Repr

/-- The outside world as one call sees it. -/
structure Env where
  /-- The `ICON_SIZE` constant (defined outside these sources). -/
  ICON_SIZE : Int
  /-- Result of `g_file_query_exists` for a path. -/
  g_file_query_exists : String → Bool
  /-- Whether `gdk_pixbuf_new_from_file` returns an image for a path. -/
  gdk_pixbuf_loads : String → Bool
  /-- Result of `gtk_widget_get_scale_factor` on the icon. -/
  scale_factor : Int
  /-- For a path: `none` when `g_desktop_app_info_new_from_filename` returns
  `NULL`, else the result of `g_desktop_app_info_get_string(_, "Icon")`. -/
  desktop_icon : String → Option (Option String)
  /-- The text `g_strdup_printf(_("Refreshing “%s” to latest version. Please
  wait."), app_name)` for an application name, in the current locale. -/
  refreshing_label : String → String
  /-- The builder objects of a new window. -/
  builder : GtkBuilder
  /-- The main loop's last source id; `g_timeout_add` returns the next one. -/
  last_source_id : Nat

/-! ## Teardown -/

/-- Modelled from the spec: `refresh_state_free` is called by
`refresh_status.c` but defined elsewhere.  The spec has it "tear it down
immediately (cancel timer, release window resources, remove from Registry)":
the window behind the pointer leaves the registry, the other windows stay as
they are. -/
def refresh_state_free (ds : DsState) (state : Nat) : DsState :=
  { ds with refreshing_list := ds.refreshing_list.eraseIdx state }

/-- The `on_close_window` handler of the window's `close-request` signal. -/
def on_close_window (ds : DsState) (state : Nat) : Bool × DsState :=
  (true, refresh_state_free ds state)

/-- The `on_hide_clicked` handler of the hide button. -/
def on_hide_clicked (ds : DsState) (state : Nat) : DsState :=
  refresh_state_free ds state

/-! ## The poll tick -/

/-- What one run of `refresh_progress_bar` did: its return value, the fields
of `*state` afterwards, and whether it called `refresh_state_free(state)`. -/
structure TickResult where
  ret : gboolean
  state : SdiRefreshState
  freed : Bool
deriving DecidableEq, Repr

/-- The first statement of `refresh_progress_bar`: pulse when `pulsed`. -/
def pulse_if_pulsed (state : SdiRefreshState) : SdiRefreshState :=
  if state.pulsed then
    { state with progress_bar :=
        { state.progress_bar with pulses := state.progress_bar.pulses + 1 } }
  else state

/-- The timer callback `refresh_progress_bar(state)`; `st` is what `stat`
returns if the function gets to call it. -/
def refresh_progress_bar (state : SdiRefreshState) (st : StatResult) : TickResult :=
  let state := pulse_if_pulsed state
  match state.lock_file with
  | none => { ret := .G_SOURCE_CONTINUE, state := state, freed := false }
  | some _ =>
    match st with
    | .error errno =>
      if errno = ENOENT ∨ errno = ENOTDIR then
        if state.wait_change_in_lock_file then
          { ret := .G_SOURCE_CONTINUE, state := state, freed := false }
        else
          { ret := .G_SOURCE_REMOVE, state := state, freed := true }
      else
        { ret := .G_SOURCE_CONTINUE,
          state := { state with wait_change_in_lock_file := false },
          freed := false }
    | .ok st_size =>
      if st_size = 0 then
        if state.wait_change_in_lock_file then
          { ret := .G_SOURCE_CONTINUE, state := state, freed := false }
        else
          { ret := .G_SOURCE_REMOVE, state := state, freed := true }
      else
        { ret := .G_SOURCE_CONTINUE,
          state := { state with wait_change_in_lock_file := false },
          freed := false }

/-- The main loop firing the timer of the window at index `i`: runs
`refresh_progress_bar` on it and stores what it did.  `none` when there is no
such window, hence no such timer. -/
def timeout_dispatch (ds : DsState) (i : Nat) (st : StatResult) :
    Option (gboolean × DsState) :=
  match ds.refreshing_list[i]? with
  | none => none
  | some state =>
    let r := refresh_progress_bar state st
    if r.freed then some (r.ret, refresh_state_free ds i)
    else some (r.ret, { ds with refreshing_list := ds.refreshing_list.set i r.state })

/-- Successive firings of the timer of window `i`, one per observation, with
nothing else happening in between.  The timer is gone once a callback returned
`G_SOURCE_REMOVE`, so the remaining observations produce no tick.  Returns the
return values of the ticks that ran and the registry at the end. -/
def poll_ticks (ds : DsState) (i : Nat) : List StatResult → List gboolean × DsState
  | [] => ([], ds)
  | st :: rest =>
    match timeout_dispatch ds i st with
    | none => ([], ds)
    | some (.G_SOURCE_REMOVE, ds1) => ([.G_SOURCE_REMOVE], ds1)
    | some (.G_SOURCE_CONTINUE, ds1) =>
      let r := poll_ticks ds1 i rest
      (.G_SOURCE_CONTINUE :: r.1, r.2)

/-! ## Parameters -/

/-- Index of the first window of the array whose `app_name` is `app_name`,
as the loop of `find_application` walks it from `start`. -/
def find_application_from (app_name : String) : List SdiRefreshState → Nat → Option Nat
  | [], _ => none
  | state :: rest, i =>
    if state.app_name = app_name then some i
    else find_application_from app_name rest (i + 1)

/-- The lookup `find_application(ds_state, app_name)`. -/
def find_application (ds_state : DsState) (app_name : String) : Option Nat :=
  find_application_from app_name ds_state.refreshing_list 0

/-- The setter `set_message`. -/
def set_message (state : SdiRefreshState) (message : Option String) : SdiRefreshState :=
  match message with
  | none => state
  | some m => { state with message := { state.message with text := m } }

/-- The setter `set_title`. -/
def set_title (state : SdiRefreshState) (title : Option String) : SdiRefreshState :=
  match title with
  | none => state
  | some t => { state with window := { state.window with title := some t } }

/-- The setter `set_icon`. -/
def set_icon (state : SdiRefreshState) (icon : Option String) : SdiRefreshState :=
  match icon with
  | none => state
  | some name =>
    if name = "" then
      { state with icon := { state.icon with visible := false } }
    else
      { state with icon := { visible := true, image := .icon_name name } }

/-- The setter `set_icon_image`. -/
def set_icon_image (env : Env) (state : SdiRefreshState) (path : Option String) :
    SdiRefreshState :=
  match path with
  | none => state
  | some p =>
    if p = "" then
      { state with icon := { state.icon with visible := false } }
    else if !env.g_file_query_exists p then
      { state with icon := { state.icon with visible := false } }
    else if !env.gdk_pixbuf_loads p then
      { state with icon := { state.icon with visible := false } }
    else
      let scale := env.scale_factor
      { state with icon :=
          { visible := true,
            image := .pixbuf p (env.ICON_SIZE * scale) (env.ICON_SIZE * scale) } }

/-- The setter `set_desktop_file`. -/
def set_desktop_file (env : Env) (state : SdiRefreshState) (path : Option String) :
    SdiRefreshState :=
  match path with
  | none => state
  | some p =>
    if p = "" then state
    else
      match env.desktop_icon p with
      | none => state
      | some none => state
      | some (some icon) => set_icon_image env state (some icon)

/-- One round of the `while` loop of `handle_extra_params`. -/
def handle_extra_param (env : Env) (state : SdiRefreshState) (entry : String × GVariant) :
    SdiRefreshState :=
  let key := entry.1
  let value := entry.2
  if key = "message" then set_message state (g_variant_get_string value)
  else if key = "title" then set_title state (g_variant_get_string value)
  else if key = "icon" then set_icon state (g_variant_get_string value)
  else if key = "icon_image" then set_icon_image env state (g_variant_get_string value)
  else if key = "wait_change_in_lock_file" then
    { state with wait_change_in_lock_file := true }
  else if key = "desktop_file" then set_desktop_file env state (g_variant_get_string value)
  else state

/-- The function `handle_extra_params`: the entries of the `a{sv}` container
in order. -/
def handle_extra_params (env : Env) (state : SdiRefreshState)
    (extra_params : List (String × GVariant)) : SdiRefreshState :=
  extra_params.foldl (handle_extra_param env) state

/-! ## D-Bus handlers -/

/-- The constructor `sdi_refresh_state_new`: `g_object_new` zero-fills the
instance, then `app_name` and `pulsed` are set.  The widget fields are null
until the caller fills them from the builder, which it always does; they are
taken from `env.builder` here. -/
def sdi_refresh_state_new (env : Env) (app_name : String) : SdiRefreshState :=
  { app_name := app_name,
    window := env.builder.main_window,
    progress_bar := env.builder.progress_bar,
    message := env.builder.app_label,
    icon := env.builder.app_icon,
    lock_file := none,
    timeout_id := 0,
    close_id := 0,
    pulsed := true,
    wait_change_in_lock_file := false }

/-- The window as `gtk_window_present` leaves it. -/
def gtk_window_present (state : SdiRefreshState) : SdiRefreshState :=
  { state with window := { state.window with visible := true } }

/-- The window `handle_application_is_being_refreshed` builds for a name that
has none, as it is when `g_ptr_array_add` stores it in the registry. -/
def new_refresh_window (env : Env) (app_name lock_file_path : String) : SdiRefreshState :=
  let state := sdi_refresh_state_new env app_name
  let state := { state with
    lock_file := if lock_file_path = "" then none else some lock_file_path }
  let state := { state with wait_change_in_lock_file := false }
  let state := { state with message := { state.message with text := env.refreshing_label app_name } }
  let state := { state with icon := { state.icon with visible := false } }
  let state := { state with timeout_id := env.last_source_id + 1 }
  gtk_window_present state

/-- The handler `handle_application_is_being_refreshed`.  In the branch that
creates a window, the params are applied to the window that was just appended
to the array. -/
def handle_application_is_being_refreshed (env : Env) (app_name lock_file_path : String)
    (extra_params : List (String × GVariant)) (ds_state : DsState) : DsState :=
  match find_application ds_state app_name with
  | some i =>
    { ds_state with
      refreshing_list :=
        ds_state.refreshing_list.modify
          (fun state => handle_extra_params env (gtk_window_present state) extra_params) i }
  | none =>
    let state := new_refresh_window env app_name lock_file_path
    { ds_state with
      refreshing_list :=
        ds_state.refreshing_list ++ [handle_extra_params env state extra_params] }

/-- The handler `handle_close_application_window`. -/
def handle_close_application_window (app_name : String)
    (_extra_params : List (String × GVariant)) (ds_state : DsState) : DsState :=
  match find_application ds_state app_name with
  | none => ds_state
  | some i => refresh_state_free ds_state i

/-- The handler `handle_set_pulsed_progress`. -/
def handle_set_pulsed_progress (env : Env) (app_name : String) (bar_text : Option String)
    (extra_params : List (String × GVariant)) (ds_state : DsState) : DsState :=
  match find_application ds_state app_name with
  | none => ds_state
  | some i =>
    { ds_state with
      refreshing_list :=
        ds_state.refreshing_list.modify
          (fun state =>
            let state := { state with pulsed := true }
            let state :=
              if bar_text = none ∨ bar_text = some "" then
                { state with progress_bar := { state.progress_bar with show_text := false } }
              else
                { state with progress_bar :=
                    { state.progress_bar with show_text := true, text := bar_text } }
            handle_extra_params env state extra_params) i }

/-- The handler `handle_set_percentage_progress`. -/
def handle_set_percentage_progress (env : Env) (app_name : String)
    (bar_text : Option String) (percent : gdouble)
    (extra_params : List (String × GVariant)) (ds_state : DsState) : DsState :=
  match find_application ds_state app_name with
  | none => ds_state
  | some i =>
    { ds_state with
      refreshing_list :=
        ds_state.refreshing_list.modify
          (fun state =>
            let state := { state with pulsed := false }
            let state := { state with progress_bar :=
              { state.progress_bar with fraction := percent } }
            let state := { state with progress_bar :=
              { state.progress_bar with show_text := true } }
            let state :=
              if bar_text ≠ none ∧ bar_text = some "" then
                { state with progress_bar := { state.progress_bar with text := none } }
              else
                { state with progress_bar := { state.progress_bar with text := bar_text } }
            handle_extra_params env state extra_params) i }

/-! ## The registry over time -/

/-- Everything that can happen to the registry: the four D-Bus calls, the
timer of a window firing, and the user closing or hiding a window. -/
inductive Event where
  | application_is_being_refreshed (env : Env) (app_name lock_file_path : String)
      (extra_params : List (String × GVariant))
  | close_application_window (app_name : String) (extra_params : List (String × GVariant))
  | set_pulsed_progress (env : Env) (app_name : String) (bar_text : Option String)
      (extra_params : List (String × GVariant))
  | set_percentage_progress (env : Env) (app_name : String) (bar_text : Option String)
      (percent : gdouble) (extra_params : List (String × GVariant))
  | poll_tick (window : Nat) (st : StatResult)
  | close_request (window : Nat)
  | hide_clicked (window : Nat)

/-- The registry after one event. -/
def step (ds : DsState) : Event → DsState
  | .application_is_being_refreshed env app_name lock_file_path extra_params =>
    handle_application_is_being_refreshed env app_name lock_file_path extra_params ds
  | .close_application_window app_name extra_params =>
    handle_close_application_window app_name extra_params ds
  | .set_pulsed_progress env app_name bar_text extra_params =>
    handle_set_pulsed_progress env app_name bar_text extra_params ds
  | .set_percentage_progress env app_name bar_text percent extra_params =>
    handle_set_percentage_progress env app_name bar_text percent extra_params ds
  | .poll_tick window st =>
    match timeout_dispatch ds window st with
    | none => ds
    | some (_, ds1) => ds1
  | .close_request window => (on_close_window ds window).2
  | .hide_clicked window => on_hide_clicked ds window

/-- The registry after a sequence of events. -/
def run (ds : DsState) (events : List Event) : DsState :=
  events.foldl step ds

/-- The registry at program start. -/
def empty_registry : DsState :=
  { refreshing_list := [] }

/-- The names of the open windows, in registry order. -/
def app_names (ds : DsState) : List String :=
  ds.refreshing_list.map (fun state => state.app_name)

/-- No two windows of the registry have the same `app_name`. -/
def registry_unique (ds : DsState) : Prop :=
  (app_names ds).Nodup

instance (ds : DsState) : Decidable (registry_unique ds) :=
  inferInstanceAs (Decidable (app_names ds).Nodup)

/-- The keys `handle_extra_params` acts on. -/
def recognized_key (key : String) : Bool :=
  key = "message" || key = "title" || key = "icon" || key = "icon_image"
    || key = "desktop_file" || key = "wait_change_in_lock_file"

/-! ## Vocabulary of the poll-tick properties -/

/-- Value of `EACCES` in `<errno.h>`. -/
def EACCES : Nat := 13

/-- A window with its pulse counter replaced. -/
def with_pulses (state : SdiRefreshState) (n : Nat) : SdiRefreshState :=
  { state with progress_bar := { state.progress_bar with pulses := n } }

/-- The observation "lock file absent or empty": `stat` fails with `ENOENT`
or `ENOTDIR`, or succeeds with size zero. -/
def absent_or_empty : StatResult → Bool
  | .ok st_size => st_size = 0
  | .error errno => errno = ENOENT || errno = ENOTDIR

/-- The observation "lock file present and non-empty". -/
def present_nonempty : StatResult → Bool
  | .ok st_size => st_size ≠ 0
  | .error _ => false

/-- For one run of poll ticks: whenever tick `k` returned `G_SOURCE_REMOVE`,
an earlier tick observed the lock file present and non-empty. -/
def closes_only_after_nonempty (ds : DsState) (i : Nat) (obs : List StatResult) : Prop :=
  ∀ k : Nat, (poll_ticks ds i obs).1[k]? = some gboolean.G_SOURCE_REMOVE →
    ∃ j : Nat, j < k ∧ ∃ st : StatResult, obs[j]? = some st ∧ present_nonempty st = true

/-- For one run of poll ticks: whenever tick `k` returned `G_SOURCE_REMOVE`,
an earlier tick observed something other than "absent or empty" (the lock file
present and non-empty, or a `stat` error other than `ENOENT`/`ENOTDIR`). -/
def closes_only_after_change (ds : DsState) (i : Nat) (obs : List StatResult) : Prop :=
  ∀ k : Nat, (poll_ticks ds i obs).1[k]? = some gboolean.G_SOURCE_REMOVE →
    ∃ j : Nat, j < k ∧ ∃ st : StatResult, obs[j]? = some st ∧ absent_or_empty st = false

/-! ## Sample data -/

/-- A sample world: icons are 48 pixels, every file exists and loads, and
`/app.desktop` names the icon `/app.png`. -/
def sample_env : Env :=
  { ICON_SIZE := 48,
    g_file_query_exists := fun _ => true,
    gdk_pixbuf_loads := fun _ => true,
    scale_factor := 2,
    desktop_icon := fun p => if p = "/app.desktop" then some (some "/app.png") else none,
    refreshing_label := fun app_name => "Refreshing " ++ app_name,
    builder :=
      { main_window := { title := some "Refresh", visible := false },
        app_label := { text := "" },
        progress_bar := { fraction := { bits := 0 }, show_text := false, text := none, pulses := 0 },
        app_icon := { visible := true, image := .empty } },
    last_source_id := 6 }

/-- A sample window of `firefox` that polls the lock file `/run/lock` and
waits for a change in it. -/
def sample_window : SdiRefreshState :=
  { app_name := "firefox",
    window := { title := some "Refresh", visible := true },
    progress_bar := { fraction := { bits := 0 }, show_text := true, text := some "half", pulses := 3 },
    message := { text := "Refreshing firefox" },
    icon := { visible := true, image := .icon_name "firefox" },
    lock_file := some "/run/lock",
    timeout_id := 7,
    close_id := 0,
    pulsed := true,
    wait_change_in_lock_file := true }

/-- A sample registry with two windows. -/
def sample_registry : DsState :=
  { refreshing_list := [{ sample_window with app_name := "gimp", lock_file := none }, sample_window] }

/-- The registry after `firefox` is announced with the lock file `/run/lock`
and the `wait_change_in_lock_file` parameter, starting from no windows. -/
def waiting_registry : DsState :=
  handle_application_is_being_refreshed sample_env "firefox" "/run/lock"
    [("wait_change_in_lock_file", .boolean true)] empty_registry

/-! ## Disposal -/

/-- One call made by `sdi_refresh_state_dispose`. -/
inductive DisposeAction where
  | g_source_remove (id : Nat)
  | g_signal_handler_disconnect (id : Nat)
  | g_free_lock_file
  | g_free_app_name
  | gtk_window_destroy
  | parent_dispose
deriving DecidableEq, Repr

/-- The calls `sdi_refresh_state_dispose(object)` makes, in order.  The
`window` of a window built by `handle_application_is_being_refreshed` is the
builder object, which is not `NULL`, so the test `self->window != NULL` holds. -/
def sdi_refresh_state_dispose (self : SdiRefreshState) : List DisposeAction :=
  (if self.timeout_id ≠ 0 then [.g_source_remove self.timeout_id] else []) ++
  (if self.close_id ≠ 0 then [.g_signal_handler_disconnect self.close_id] else []) ++
  [.g_free_lock_file, .g_free_app_name] ++
  [.gtk_window_destroy] ++
  [.parent_dispose]

/-! ## Vocabulary of the icon properties -/

/-- The keys whose entries act on the icon: `icon`, `icon_image` and
`desktop_file`. -/
def icon_key (key : String) : Bool :=
  key = "icon" || key = "icon_image" || key = "desktop_file"

/-- A window with its icon hidden and every other field, the image included,
as it is. -/
def hide_icon (state : SdiRefreshState) : SdiRefreshState :=
  { state with icon := { state.icon with visible := false } }

/-! ## Lemmas: parameters keep the bookkeeping fields -/

theorem set_icon_image_frame (env : Env) (state : SdiRefreshState) (path : Option String) :
    (set_icon_image env state path).app_name = state.app_name ∧
    (set_icon_image env state path).lock_file = state.lock_file ∧
    (set_icon_image env state path).pulsed = state.pulsed ∧
    (set_icon_image env state path).progress_bar = state.progress_bar ∧
    (set_icon_image env state path).window.visible = state.window.visible ∧
    (set_icon_image env state path).timeout_id = state.timeout_id ∧
    (set_icon_image env state path).close_id = state.close_id := by
  unfold set_icon_image
  cases path with
  | none => simp
  | some p => dsimp only; split_ifs <;> simp

theorem handle_extra_param_frame (env : Env) (state : SdiRefreshState)
    (entry : String × GVariant) :
    (handle_extra_param env state entry).app_name = state.app_name ∧
    (handle_extra_param env state entry).lock_file = state.lock_file ∧
    (handle_extra_param env state entry).pulsed = state.pulsed ∧
    (handle_extra_param env state entry).progress_bar = state.progress_bar ∧
    (handle_extra_param env state entry).window.visible = state.window.visible ∧
    (handle_extra_param env state entry).timeout_id = state.timeout_id ∧
    (handle_extra_param env state entry).close_id = state.close_id := by
  unfold handle_extra_param
  dsimp only
  split_ifs
  · unfold set_message; cases g_variant_get_string entry.2 <;> simp
  · unfold set_title; cases g_variant_get_string entry.2 <;> simp
  · unfold set_icon
    cases g_variant_get_string entry.2 with
    | none => simp
    | some name => dsimp only; split_ifs <;> simp
  · exact set_icon_image_frame env state _
  · simp
  · unfold set_desktop_file
    cases g_variant_get_string entry.2 with
    | none => simp
    | some p =>
      dsimp only
      split_ifs
      · simp
      · cases h : env.desktop_icon p with
        | none => simp
        | some o =>
          cases o with
          | none => simp
          | some icon => exact set_icon_image_frame env state _
  · simp

theorem handle_extra_params_frame (env : Env) (extra_params : List (String × GVariant)) :
    ∀ state : SdiRefreshState,
    (handle_extra_params env state extra_params).app_name = state.app_name ∧
    (handle_extra_params env state extra_params).lock_file = state.lock_file ∧
    (handle_extra_params env state extra_params).pulsed = state.pulsed ∧
    (handle_extra_params env state extra_params).progress_bar = state.progress_bar ∧
    (handle_extra_params env state extra_params).window.visible = state.window.visible ∧
    (handle_extra_params env state extra_params).timeout_id = state.timeout_id ∧
    (handle_extra_params env state extra_params).close_id = state.close_id := by
  induction extra_params with
  | nil => intro state; simp [handle_extra_params]
  | cons entry rest ih =>
    intro state
    have h1 := handle_extra_param_frame env state entry
    have h2 := ih (handle_extra_param env state entry)
    simp only [handle_extra_params, List.foldl_cons] at h2 ⊢
    obtain ⟨a1, a2, a3, a4, a5, a6, a7⟩ := h1
    obtain ⟨b1, b2, b3, b4, b5, b6, b7⟩ := h2
    exact ⟨b1.trans a1, b2.trans a2, b3.trans a3, b4.trans a4, b5.trans a5,
      b6.trans a6, b7.trans a7⟩

theorem handle_extra_params_app_name (env : Env) (state : SdiRefreshState)
    (extra_params : List (String × GVariant)) :
    (handle_extra_params env state extra_params).app_name = state.app_name :=
  (handle_extra_params_frame env extra_params state).1

/-! ## Lemmas: lookup -/

theorem find_application_from_none (app_name : String) :
    ∀ (l : List SdiRefreshState) (k : Nat),
      find_application_from app_name l k = none ↔ ∀ w ∈ l, w.app_name ≠ app_name := by
  intro l
  induction l with
  | nil => intro k; simp [find_application_from]
  | cons state rest ih =>
    intro k
    unfold find_application_from
    by_cases h : state.app_name = app_name
    · simp [h]
    · simp [h, ih (k + 1)]

theorem find_application_from_some (app_name : String) :
    ∀ (l : List SdiRefreshState) (k i : Nat),
      find_application_from app_name l k = some i →
      k ≤ i ∧ ∃ w, l[i - k]? = some w ∧ w.app_name = app_name := by
  intro l
  induction l with
  | nil => intro k i h; simp [find_application_from] at h
  | cons state rest ih =>
    intro k i h
    unfold find_application_from at h
    by_cases hn : state.app_name = app_name
    · simp [hn] at h
      subst h
      exact ⟨le_refl _, state, by simp, hn⟩
    · simp [hn] at h
      obtain ⟨hk, w, hw, hwn⟩ := ih (k + 1) i h
      refine ⟨by omega, w, ?_, hwn⟩
      have e : i - k = (i - (k + 1)) + 1 := by omega
      rw [e]
      simpa using hw

theorem find_application_none {ds : DsState} {app_name : String} :
    find_application ds app_name = none ↔ app_name ∉ app_names ds := by
  unfold find_application app_names
  rw [find_application_from_none]
  simp only [List.mem_map, not_exists, not_and]

theorem find_application_some {ds : DsState} {app_name : String} {i : Nat}
    (h : find_application ds app_name = some i) :
    ∃ w, ds.refreshing_list[i]? = some w ∧ w.app_name = app_name := by
  obtain ⟨_, w, hw, hn⟩ := find_application_from_some app_name _ 0 i h
  exact ⟨w, by simpa using hw, hn⟩

/-! ## Lemmas: the names in the registry -/

theorem map_app_name_modify (f : SdiRefreshState → SdiRefreshState)
    (hf : ∀ s, (f s).app_name = s.app_name) :
    ∀ (l : List SdiRefreshState) (i : Nat),
      (l.modify f i).map (fun state => state.app_name) = l.map (fun state => state.app_name) := by
  intro l
  induction l with
  | nil => intro i; simp
  | cons a rest ih =>
    intro i
    cases i with
    | zero => simp [hf]
    | succ n => simp [ih n]

theorem map_app_name_set (l : List SdiRefreshState) (i : Nat) (w w1 : SdiRefreshState)
    (hw : l[i]? = some w) (hn : w1.app_name = w.app_name) :
    (l.set i w1).map (fun state => state.app_name) = l.map (fun state => state.app_name) := by
  induction l generalizing i with
  | nil => simp
  | cons a rest ih =>
    cases i with
    | zero =>
      simp at hw
      subst hw
      simp [hn]
    | succ n =>
      simp at hw
      simp [ih n hw]

theorem registry_unique_free {ds : DsState} (h : registry_unique ds) (i : Nat) :
    registry_unique (refresh_state_free ds i) := by
  unfold registry_unique app_names refresh_state_free at *
  exact List.Nodup.sublist ((List.eraseIdx_sublist _ _).map _) h

theorem pulse_if_pulsed_frame (state : SdiRefreshState) :
    (pulse_if_pulsed state).app_name = state.app_name ∧
    (pulse_if_pulsed state).lock_file = state.lock_file ∧
    (pulse_if_pulsed state).wait_change_in_lock_file = state.wait_change_in_lock_file := by
  unfold pulse_if_pulsed
  split_ifs <;> simp

theorem refresh_progress_bar_app_name (state : SdiRefreshState) (st : StatResult) :
    (refresh_progress_bar state st).state.app_name = state.app_name := by
  have hp := (pulse_if_pulsed_frame state).1
  unfold refresh_progress_bar
  dsimp only
  split
  · exact hp
  · split <;> split_ifs <;> simpa using hp

theorem app_names_application_is_being_refreshed (env : Env) (app_name lock_file_path : String)
    (extra_params : List (String × GVariant)) (ds : DsState) :
    app_names (handle_application_is_being_refreshed env app_name lock_file_path extra_params ds)
      = if app_name ∈ app_names ds then app_names ds else app_names ds ++ [app_name] := by
  unfold handle_application_is_being_refreshed
  cases h : find_application ds app_name with
  | some i =>
    have hm : app_name ∈ app_names ds := by
      by_contra hc
      rw [find_application_none.2 hc] at h
      cases h
    simp only [hm, if_true]
    unfold app_names
    dsimp only
    apply map_app_name_modify
    intro s
    rw [handle_extra_params_app_name]
    rfl
  | none =>
    have hm : app_name ∉ app_names ds := find_application_none.1 h
    simp only [hm, if_false]
    unfold app_names
    dsimp only
    simp only [List.map_append, List.map_cons, List.map_nil, handle_extra_params_app_name]
    rfl

theorem registry_unique_modify {ds : DsState} (h : registry_unique ds)
    (f : SdiRefreshState → SdiRefreshState) (hf : ∀ s, (f s).app_name = s.app_name) (i : Nat) :
    registry_unique { ds with refreshing_list := ds.refreshing_list.modify f i } := by
  unfold registry_unique app_names at *
  dsimp only
  rw [map_app_name_modify f hf]
  exact h

theorem registry_unique_step {ds : DsState} (h : registry_unique ds) (e : Event) :
    registry_unique (step ds e) := by
  cases e with
  | application_is_being_refreshed env app_name lock_file_path extra_params =>
    show registry_unique
      (handle_application_is_being_refreshed env app_name lock_file_path extra_params ds)
    unfold registry_unique at *
    rw [app_names_application_is_being_refreshed]
    split_ifs with hm
    · exact h
    · exact List.nodup_append.2 ⟨h, List.nodup_singleton _, by simpa using hm⟩
  | close_application_window app_name extra_params =>
    show registry_unique (handle_close_application_window app_name extra_params ds)
    unfold handle_close_application_window
    cases find_application ds app_name with
    | none => exact h
    | some i => exact registry_unique_free h i
  | set_pulsed_progress env app_name bar_text extra_params =>
    show registry_unique (handle_set_pulsed_progress env app_name bar_text extra_params ds)
    unfold handle_set_pulsed_progress
    cases find_application ds app_name with
    | none => exact h
    | some i =>
      apply registry_unique_modify h
      intro s
      rw [handle_extra_params_app_name]
      split_ifs <;> rfl
  | set_percentage_progress env app_name bar_text percent extra_params =>
    show registry_unique
      (handle_set_percentage_progress env app_name bar_text percent extra_params ds)
    unfold handle_set_percentage_progress
    cases find_application ds app_name with
    | none => exact h
    | some i =>
      apply registry_unique_modify h
      intro s
      rw [handle_extra_params_app_name]
      split_ifs <;> rfl
  | poll_tick window st =>
    cases hw : ds.refreshing_list[window]? with
    | none =>
      simp only [step, timeout_dispatch, hw]
      exact h
    | some state =>
      simp only [step, timeout_dispatch, hw]
      split_ifs
      · exact registry_unique_free h window
      · unfold registry_unique app_names at *
        dsimp only
        rw [map_app_name_set _ _ state _ hw (refresh_progress_bar_app_name state st)]
        exact h
  | close_request window => exact registry_unique_free h window
  | hide_clicked window => exact registry_unique_free h window

theorem registry_unique_run (events : List Event) :
    ∀ ds : DsState, registry_unique ds → registry_unique (run ds events) := by
  induction events with
  | nil => intro ds h; exact h
  | cons e rest ih =>
    intro ds h
    exact ih (step ds e) (registry_unique_step h e)

/-! ## Theorems -/

/-- C1. Registry uniqueness: in every registry reachable from the empty
registry by any sequence of the four D-Bus calls, poll ticks and user
dismissals, no two windows have the same `app_name`. -/
theorem registry_unique_reachable (events : List Event) :
    registry_unique (run empty_registry events) :=
  registry_unique_run events empty_registry List.nodup_nil

/-! ## Lemmas: the window a second notification finds -/

theorem find_application_from_congr (app_name : String) :
    ∀ (l l1 : List SdiRefreshState) (k : Nat),
      l.map (fun state => state.app_name) = l1.map (fun state => state.app_name) →
      find_application_from app_name l k = find_application_from app_name l1 k := by
  intro l
  induction l with
  | nil =>
    intro l1 k h
    cases l1 with
    | nil => rfl
    | cons b rest1 => simp at h
  | cons a rest ih =>
    intro l1 k h
    cases l1 with
    | nil => simp at h
    | cons b rest1 =>
      simp only [List.map_cons, List.cons.injEq] at h
      unfold find_application_from
      rw [h.1, ih rest1 (k + 1) h.2]

theorem find_application_from_append_new (app_name : String) (s : SdiRefreshState)
    (hs : s.app_name = app_name) :
    ∀ (l : List SdiRefreshState) (k : Nat), (∀ w ∈ l, w.app_name ≠ app_name) →
      find_application_from app_name (l ++ [s]) k = some (k + l.length) := by
  intro l
  induction l with
  | nil => intro k _; simp [find_application_from, hs]
  | cons a rest ih =>
    intro k h
    have ha : a.app_name ≠ app_name := h a (List.mem_cons_self _ _)
    have hr : ∀ w ∈ rest, w.app_name ≠ app_name := fun w hw => h w (List.mem_cons_of_mem _ hw)
    show find_application_from app_name (a :: (rest ++ [s])) k = _
    unfold find_application_from
    rw [if_neg ha, ih (k + 1) hr, List.length_cons]
    congr 1
    omega

theorem modify_eq_set_of_getElem? (f : SdiRefreshState → SdiRefreshState) :
    ∀ (l : List SdiRefreshState) (i : Nat) (w : SdiRefreshState), l[i]? = some w →
      l.modify f i = l.set i (f w) := by
  intro l
  induction l with
  | nil => intro i w h; simp at h
  | cons a rest ih =>
    intro i w h
    cases i with
    | zero =>
      simp at h
      subst h
      simp
    | succ n =>
      simp at h
      simp [ih n w h]

theorem gtk_window_present_of_visible (state : SdiRefreshState)
    (h : state.window.visible = true) : gtk_window_present state = state := by
  obtain ⟨app_name, ⟨title, visible⟩, bar, message, icon, lock, tid, cid, pulsed, wait⟩ := state
  simp only at h
  subst h
  rfl

theorem being_refreshed_existing (env : Env) (app_name lock_file_path : String)
    (extra_params : List (String × GVariant)) (ds : DsState) (i : Nat)
    (h : find_application ds app_name = some i) :
    handle_application_is_being_refreshed env app_name lock_file_path extra_params ds =
      { ds with
        refreshing_list :=
          ds.refreshing_list.modify
            (fun state => handle_extra_params env (gtk_window_present state) extra_params) i } := by
  unfold handle_application_is_being_refreshed
  simp only [h]

/-- After `handle_application_is_being_refreshed` the lookup of the name finds
a window, and that window is shown. -/
theorem being_refreshed_window (env : Env) (app_name lock_file_path : String)
    (extra_params : List (String × GVariant)) (ds : DsState) :
    ∃ i w,
      find_application
        (handle_application_is_being_refreshed env app_name lock_file_path extra_params ds)
        app_name = some i ∧
      (handle_application_is_being_refreshed env app_name lock_file_path extra_params
        ds).refreshing_list[i]? = some w ∧
      w.app_name = app_name ∧ w.window.visible = true := by
  cases h : find_application ds app_name with
  | some i =>
    obtain ⟨w0, hw0, hn0⟩ := find_application_some h
    refine ⟨i, handle_extra_params env (gtk_window_present w0) extra_params, ?_, ?_, ?_, ?_⟩
    · unfold handle_application_is_being_refreshed
      simp only [h]
      unfold find_application at *
      rw [← h]
      apply find_application_from_congr
      apply map_app_name_modify
      intro s
      rw [handle_extra_params_app_name]
      rfl
    · unfold handle_application_is_being_refreshed
      simp only [h, List.getElem?_modify_eq, hw0, Option.map_eq_map, Option.map_some']
    · rw [handle_extra_params_app_name]
      exact hn0
    · rw [(handle_extra_params_frame env extra_params _).2.2.2.2.1]
      rfl
  | none =>
    have hnew : ∀ w ∈ ds.refreshing_list, w.app_name ≠ app_name :=
      (find_application_from_none app_name _ 0).1 h
    have hname : (handle_extra_params env (new_refresh_window env app_name lock_file_path)
        extra_params).app_name = app_name := by
      rw [handle_extra_params_app_name]
      rfl
    refine ⟨ds.refreshing_list.length,
      handle_extra_params env (new_refresh_window env app_name lock_file_path) extra_params,
      ?_, ?_, hname, ?_⟩
    · unfold handle_application_is_being_refreshed
      simp only [h]
      unfold find_application
      rw [find_application_from_append_new app_name _ hname _ 0 hnew]
      simp
    · unfold handle_application_is_being_refreshed
      simp only [h]
      rw [List.getElem?_append_right (le_refl _)]
      simp
    · rw [(handle_extra_params_frame env extra_params _).2.2.2.2.1]
      rfl

/-- C2. Two "being refreshed" notifications in a row for one name: the
registry then holds exactly one window of that name, the second call changed
the registry only by applying its params to the window the first call left
(no window is added), and the lock file is still the one it had after the
first call. -/
theorem being_refreshed_twice (env1 env2 : Env) (app_name p1 p2 : String)
    (q1 q2 : List (String × GVariant)) (ds : DsState) (h : registry_unique ds) :
    ∃ i w1,
      (handle_application_is_being_refreshed env1 app_name p1 q1 ds).refreshing_list[i]?
        = some w1 ∧
      w1.app_name = app_name ∧
      (handle_application_is_being_refreshed env2 app_name p2 q2
        (handle_application_is_being_refreshed env1 app_name p1 q1 ds)).refreshing_list
        = (handle_application_is_being_refreshed env1 app_name p1 q1 ds).refreshing_list.set i
            (handle_extra_params env2 w1 q2) ∧
      (handle_extra_params env2 w1 q2).lock_file = w1.lock_file ∧
      (app_names (handle_application_is_being_refreshed env2 app_name p2 q2
        (handle_application_is_being_refreshed env1 app_name p1 q1 ds))).count app_name = 1 := by
  obtain ⟨i, w1, hf, hw, hn, hv⟩ := being_refreshed_window env1 app_name p1 q1 ds
  have hu1 : registry_unique (handle_application_is_being_refreshed env1 app_name p1 q1 ds) :=
    registry_unique_step h (.application_is_being_refreshed env1 app_name p1 q1)
  have hu2 : registry_unique (handle_application_is_being_refreshed env2 app_name p2 q2
      (handle_application_is_being_refreshed env1 app_name p1 q1 ds)) :=
    registry_unique_step hu1 (.application_is_being_refreshed env2 app_name p2 q2)
  refine ⟨i, w1, hw, hn, ?_, (handle_extra_params_frame env2 q2 w1).2.1, ?_⟩
  · rw [being_refreshed_existing env2 app_name p2 q2 _ i hf]
    dsimp only
    rw [modify_eq_set_of_getElem? _ _ i w1 hw, gtk_window_present_of_visible w1 hv]
  · apply List.count_eq_one_of_mem hu2
    rw [app_names_application_is_being_refreshed]
    have hm : app_name ∈ app_names (handle_application_is_being_refreshed env1 app_name p1 q1 ds) := by
      unfold app_names
      exact List.mem_map.2 ⟨w1, List.getElem?_mem hw, hn⟩
    simp only [hm, if_true]

/-- C2 at a sample: `firefox` is notified twice while `gimp` and `firefox`
windows are open. -/
theorem being_refreshed_twice_witness :
    registry_unique sample_registry ∧
    ∃ i w1,
      (handle_application_is_being_refreshed sample_env "firefox" "/a" [] sample_registry
        ).refreshing_list[i]? = some w1 ∧
      w1.app_name = "firefox" ∧
      (handle_application_is_being_refreshed sample_env "firefox" "/b"
        [("title", .string "t")]
        (handle_application_is_being_refreshed sample_env "firefox" "/a" []
          sample_registry)).refreshing_list
        = (handle_application_is_being_refreshed sample_env "firefox" "/a" []
            sample_registry).refreshing_list.set i
            (handle_extra_params sample_env w1 [("title", .string "t")]) ∧
      (handle_extra_params sample_env w1 [("title", .string "t")]).lock_file = w1.lock_file ∧
      (app_names (handle_application_is_being_refreshed sample_env "firefox" "/b"
        [("title", .string "t")]
        (handle_application_is_being_refreshed sample_env "firefox" "/a" []
          sample_registry))).count "firefox" = 1 :=
  ⟨by decide, being_refreshed_twice sample_env sample_env "firefox" "/a" "/b" []
    [("title", .string "t")] sample_registry (by decide)⟩

/-! ## Lemmas: one poll tick -/

theorem pulse_if_pulsed_with_pulses (w : SdiRefreshState) (n : Nat) :
    ∃ m, pulse_if_pulsed (with_pulses w n) = with_pulses w m := by
  unfold pulse_if_pulsed
  split_ifs
  · exact ⟨n + 1, rfl⟩
  · exact ⟨n, rfl⟩

theorem refresh_progress_bar_no_lock_file (w : SdiRefreshState) (st : StatResult)
    (hl : w.lock_file = none) :
    refresh_progress_bar w st =
      { ret := .G_SOURCE_CONTINUE, state := pulse_if_pulsed w, freed := false } := by
  have h := (pulse_if_pulsed_frame w).2.1
  rw [hl] at h
  unfold refresh_progress_bar
  simp only [h]

theorem refresh_progress_bar_waiting (w : SdiRefreshState) (st : StatResult)
    (hwait : w.wait_change_in_lock_file = true) (hst : absent_or_empty st = true) :
    refresh_progress_bar w st =
      { ret := .G_SOURCE_CONTINUE, state := pulse_if_pulsed w, freed := false } := by
  have h := (pulse_if_pulsed_frame w).2.2
  rw [hwait] at h
  unfold refresh_progress_bar
  dsimp only
  split
  · rfl
  · cases st with
    | ok n =>
      have hn : n = 0 := by simpa [absent_or_empty] using hst
      simp [hn, h]
    | error e =>
      have he : e = ENOENT ∨ e = ENOTDIR := by simpa [absent_or_empty] using hst
      simp [he, h]

theorem refresh_progress_bar_done (w : SdiRefreshState) (st : StatResult) (path : String)
    (hl : w.lock_file = some path) (hwait : w.wait_change_in_lock_file = false)
    (hst : absent_or_empty st = true) :
    refresh_progress_bar w st =
      { ret := .G_SOURCE_REMOVE, state := pulse_if_pulsed w, freed := true } := by
  have h := (pulse_if_pulsed_frame w).2.2
  have h1 := (pulse_if_pulsed_frame w).2.1
  rw [hwait] at h
  rw [hl] at h1
  unfold refresh_progress_bar
  simp only [h1]
  cases st with
  | ok n =>
    have hn : n = 0 := by simpa [absent_or_empty] using hst
    simp [hn, h]
  | error e =>
    have he : e = ENOENT ∨ e = ENOTDIR := by simpa [absent_or_empty] using hst
    simp [he, h]

theorem refresh_progress_bar_change (w : SdiRefreshState) (st : StatResult) (path : String)
    (hl : w.lock_file = some path) (hst : absent_or_empty st = false) :
    refresh_progress_bar w st =
      { ret := .G_SOURCE_CONTINUE,
        state := { pulse_if_pulsed w with wait_change_in_lock_file := false },
        freed := false } := by
  have h1 := (pulse_if_pulsed_frame w).2.1
  rw [hl] at h1
  unfold refresh_progress_bar
  simp only [h1]
  cases st with
  | ok n =>
    have hn : n ≠ 0 := by simpa [absent_or_empty] using hst
    simp [hn]
  | error e =>
    have he : ¬ (e = ENOENT ∨ e = ENOTDIR) := by simpa [absent_or_empty] using hst
    simp [he]

theorem timeout_dispatch_kept (ds : DsState) (i : Nat) (w : SdiRefreshState) (st : StatResult)
    (hw : ds.refreshing_list[i]? = some w) (hf : (refresh_progress_bar w st).freed = false) :
    timeout_dispatch ds i st =
      some ((refresh_progress_bar w st).ret,
        { ds with refreshing_list := ds.refreshing_list.set i (refresh_progress_bar w st).state }) := by
  unfold timeout_dispatch
  simp only [hw, hf]
  rfl

theorem timeout_dispatch_freed (ds : DsState) (i : Nat) (w : SdiRefreshState) (st : StatResult)
    (hw : ds.refreshing_list[i]? = some w) (hf : (refresh_progress_bar w st).freed = true) :
    timeout_dispatch ds i st =
      some ((refresh_progress_bar w st).ret, refresh_state_free ds i) := by
  unfold timeout_dispatch
  simp only [hw, hf]
  rfl

theorem getElem?_set_of_getElem? (l : List SdiRefreshState) (i : Nat) (w w1 : SdiRefreshState)
    (hw : l[i]? = some w) : (l.set i w1)[i]? = some w1 := by
  have hi : i < l.length := by
    by_contra hc
    rw [List.getElem?_eq_none (by omega)] at hw
    cases hw
  simp [hi]

theorem set_of_getElem? (l : List SdiRefreshState) (i : Nat) (w : SdiRefreshState)
    (hw : l[i]? = some w) : l.set i w = l := by
  induction l generalizing i with
  | nil => rfl
  | cons a rest ih =>
    cases i with
    | zero =>
      simp at hw
      simp [hw]
    | succ n =>
      simp at hw
      simp [ih n hw]

/-! ## Lemmas: runs of poll ticks -/

theorem poll_ticks_cons_kept (ds : DsState) (i : Nat) (w : SdiRefreshState) (st : StatResult)
    (rest : List StatResult) (hw : ds.refreshing_list[i]? = some w)
    (hr : (refresh_progress_bar w st).ret = .G_SOURCE_CONTINUE)
    (hf : (refresh_progress_bar w st).freed = false) :
    poll_ticks ds i (st :: rest) =
      (.G_SOURCE_CONTINUE ::
        (poll_ticks { ds with
          refreshing_list := ds.refreshing_list.set i (refresh_progress_bar w st).state } i rest).1,
        (poll_ticks { ds with
          refreshing_list := ds.refreshing_list.set i (refresh_progress_bar w st).state } i rest).2) := by
  rw [poll_ticks, timeout_dispatch_kept ds i w st hw hf, hr]

theorem poll_ticks_cons_freed (ds : DsState) (i : Nat) (w : SdiRefreshState) (st : StatResult)
    (rest : List StatResult) (hw : ds.refreshing_list[i]? = some w)
    (hr : (refresh_progress_bar w st).ret = .G_SOURCE_REMOVE)
    (hf : (refresh_progress_bar w st).freed = true) :
    poll_ticks ds i (st :: rest) = ([.G_SOURCE_REMOVE], refresh_state_free ds i) := by
  rw [poll_ticks, timeout_dispatch_freed ds i w st hw hf, hr]

/-- A run of ticks in which every tick only pulses: all of them return
`G_SOURCE_CONTINUE` and the window is still in its slot, with a new pulse
count. -/
theorem poll_ticks_keep (w0 : SdiRefreshState) (O : StatResult → Prop) (i : Nat)
    (hstep : ∀ n st, O st → refresh_progress_bar (with_pulses w0 n) st =
      { ret := .G_SOURCE_CONTINUE, state := pulse_if_pulsed (with_pulses w0 n), freed := false }) :
    ∀ (obs : List StatResult), (∀ st ∈ obs, O st) → ∀ (ds : DsState) (n : Nat),
      ds.refreshing_list[i]? = some (with_pulses w0 n) →
      (poll_ticks ds i obs).1 = List.replicate obs.length .G_SOURCE_CONTINUE ∧
      ∃ m, (poll_ticks ds i obs).2.refreshing_list = ds.refreshing_list.set i (with_pulses w0 m) := by
  intro obs
  induction obs with
  | nil =>
    intro _ ds n hw
    exact ⟨rfl, n, (set_of_getElem? _ _ _ hw).symm⟩
  | cons st rest ih =>
    intro hO ds n hw
    have hs := hstep n st (hO st (List.mem_cons_self _ _))
    obtain ⟨m1, hm1⟩ := pulse_if_pulsed_with_pulses w0 n
    rw [poll_ticks_cons_kept ds i _ st rest hw (by rw [hs]) (by rw [hs])]
    rw [hs]
    dsimp only
    rw [hm1]
    obtain ⟨h1, m, h2⟩ := ih (fun st1 h => hO st1 (List.mem_cons_of_mem _ h))
      { ds with refreshing_list := ds.refreshing_list.set i (with_pulses w0 m1) } m1
      (getElem?_set_of_getElem? _ _ _ _ hw)
    refine ⟨by rw [h1]; rfl, m, ?_⟩
    rw [h2]
    simp

/-! ## Theorems: the poll tick -/

/-- C3. A window with no lock file never auto-closes: each tick on it returns
`G_SOURCE_CONTINUE` without calling `refresh_state_free`; after any number of
ticks with any `stat` observations every tick has returned
`G_SOURCE_CONTINUE` and the window is still in its registry slot, changed only
in its pulse count.  A window that `handle_application_is_being_refreshed`
creates with an empty `lock_file_path` has no lock file. -/
theorem no_lock_file_never_closes (ds : DsState) (i : Nat) (w : SdiRefreshState)
    (obs : List StatResult) (hw : ds.refreshing_list[i]? = some w) (hl : w.lock_file = none)
    (env : Env) (app_name : String) (extra_params : List (String × GVariant)) (ds0 : DsState)
    (h0 : find_application ds0 app_name = none) :
    (∀ st, (refresh_progress_bar w st).ret = .G_SOURCE_CONTINUE ∧
      (refresh_progress_bar w st).freed = false) ∧
    (poll_ticks ds i obs).1 = List.replicate obs.length .G_SOURCE_CONTINUE ∧
    (∃ m, (poll_ticks ds i obs).2.refreshing_list = ds.refreshing_list.set i (with_pulses w m)) ∧
    ∃ w0, (handle_application_is_being_refreshed env app_name "" extra_params
        ds0).refreshing_list = ds0.refreshing_list ++ [w0] ∧ w0.lock_file = none := by
  refine ⟨?_, ?_, ?_, ?_⟩
  · intro st
    rw [refresh_progress_bar_no_lock_file w st hl]
    exact ⟨rfl, rfl⟩
  · exact (poll_ticks_keep w (fun _ => True) i
      (fun n st _ => refresh_progress_bar_no_lock_file _ st hl) obs (fun _ _ => trivial) ds
      w.progress_bar.pulses hw).1
  · exact (poll_ticks_keep w (fun _ => True) i
      (fun n st _ => refresh_progress_bar_no_lock_file _ st hl) obs (fun _ _ => trivial) ds
      w.progress_bar.pulses hw).2
  · refine ⟨handle_extra_params env (new_refresh_window env app_name "") extra_params, ?_, ?_⟩
    · unfold handle_application_is_being_refreshed
      simp only [h0]
    · rw [(handle_extra_params_frame env extra_params _).2.1]
      rfl

/-- C3 at a sample: three ticks on the `gimp` window, which has no lock file,
and a `vlc` window created with an empty lock-file path. -/
theorem no_lock_file_never_closes_witness :
    (∀ st, (refresh_progress_bar { sample_window with app_name := "gimp", lock_file := none }
        st).ret = .G_SOURCE_CONTINUE ∧
      (refresh_progress_bar { sample_window with app_name := "gimp", lock_file := none }
        st).freed = false) ∧
    (poll_ticks sample_registry 0 [.ok 0, .error ENOENT, .ok 5]).1
      = List.replicate 3 .G_SOURCE_CONTINUE ∧
    (∃ m, (poll_ticks sample_registry 0 [.ok 0, .error ENOENT, .ok 5]).2.refreshing_list
      = sample_registry.refreshing_list.set 0
          (with_pulses { sample_window with app_name := "gimp", lock_file := none } m)) ∧
    ∃ w0, (handle_application_is_being_refreshed sample_env "vlc" ""
        [("wait_change_in_lock_file", .boolean true)] sample_registry).refreshing_list
        = sample_registry.refreshing_list ++ [w0] ∧ w0.lock_file = none :=
  no_lock_file_never_closes sample_registry 0
    { sample_window with app_name := "gimp", lock_file := none }
    [.ok 0, .error ENOENT, .ok 5] (by decide) (by decide) sample_env "vlc"
    [("wait_change_in_lock_file", .boolean true)] sample_registry (by decide)

/-- C4. A window that waits for a change in its lock file and sees the lock
file absent (`ENOENT`/`ENOTDIR`) or empty at every poll is never closed: every
tick returns `G_SOURCE_CONTINUE`, the window stays in its registry slot, and
`wait_change_in_lock_file` is still true afterwards. -/
theorem waiting_never_closes_while_absent (ds : DsState) (i : Nat) (w : SdiRefreshState)
    (obs : List StatResult) (hw : ds.refreshing_list[i]? = some w)
    (hwait : w.wait_change_in_lock_file = true)
    (hobs : ∀ st ∈ obs, absent_or_empty st = true) :
    (poll_ticks ds i obs).1 = List.replicate obs.length .G_SOURCE_CONTINUE ∧
    ∃ w1, (poll_ticks ds i obs).2.refreshing_list = ds.refreshing_list.set i w1 ∧
      (∃ m, w1 = with_pulses w m) ∧ w1.wait_change_in_lock_file = true := by
  obtain ⟨h1, m, h2⟩ := poll_ticks_keep w (fun st => absent_or_empty st = true) i
    (fun n st hst => refresh_progress_bar_waiting _ st hwait hst) obs hobs ds
    w.progress_bar.pulses hw
  exact ⟨h1, with_pulses w m, h2, ⟨m, rfl⟩, hwait⟩

/-- C4 at a sample: the waiting `firefox` window sees its lock file missing,
empty, not under a directory, and missing again. -/
theorem waiting_never_closes_while_absent_witness :
    (poll_ticks sample_registry 1 [.error ENOENT, .ok 0, .error ENOTDIR, .error ENOENT]).1
      = List.replicate 4 .G_SOURCE_CONTINUE ∧
    ∃ w1, (poll_ticks sample_registry 1
        [.error ENOENT, .ok 0, .error ENOTDIR, .error ENOENT]).2.refreshing_list
        = sample_registry.refreshing_list.set 1 w1 ∧
      (∃ m, w1 = with_pulses sample_window m) ∧ w1.wait_change_in_lock_file = true :=
  waiting_never_closes_while_absent sample_registry 1 sample_window
    [.error ENOENT, .ok 0, .error ENOTDIR, .error ENOENT] (by decide) (by decide) (by decide)

/-! ## Lemmas: a run whose ticks all continue -/

theorem refresh_progress_bar_ret_of_freed (w : SdiRefreshState) (st : StatResult) :
    ((refresh_progress_bar w st).freed = true → (refresh_progress_bar w st).ret = .G_SOURCE_REMOVE) ∧
    ((refresh_progress_bar w st).freed = false →
      (refresh_progress_bar w st).ret = .G_SOURCE_CONTINUE) := by
  unfold refresh_progress_bar
  dsimp only
  split
  · simp
  · split <;> split_ifs <;> simp

theorem refresh_progress_bar_lock_file (w : SdiRefreshState) (st : StatResult) :
    (refresh_progress_bar w st).state.lock_file = w.lock_file := by
  have hp := (pulse_if_pulsed_frame w).2.1
  unfold refresh_progress_bar
  dsimp only
  split
  · exact hp
  · split <;> split_ifs <;> simpa using hp

theorem eraseIdx_set_same (l : List SdiRefreshState) (i : Nat) (w : SdiRefreshState) :
    (l.set i w).eraseIdx i = l.eraseIdx i := by
  induction l generalizing i with
  | nil => rfl
  | cons a rest ih =>
    cases i with
    | zero => rfl
    | succ n => simp [ih n]

/-- When all ticks of a run returned `G_SOURCE_CONTINUE` the window is still
in its slot with the lock file and name it had, and the run goes on from
there. -/
theorem poll_ticks_still_open (i : Nat) :
    ∀ (pre : List StatResult) (ds : DsState) (w : SdiRefreshState),
      ds.refreshing_list[i]? = some w →
      (poll_ticks ds i pre).1 = List.replicate pre.length .G_SOURCE_CONTINUE →
      ∃ w1, (poll_ticks ds i pre).2.refreshing_list = ds.refreshing_list.set i w1 ∧
        w1.lock_file = w.lock_file ∧ w1.app_name = w.app_name ∧
        ∀ rest, poll_ticks ds i (pre ++ rest) =
          (List.replicate pre.length .G_SOURCE_CONTINUE ++
            (poll_ticks (poll_ticks ds i pre).2 i rest).1,
           (poll_ticks (poll_ticks ds i pre).2 i rest).2) := by
  intro pre
  induction pre with
  | nil =>
    intro ds w hw _
    exact ⟨w, (set_of_getElem? _ _ _ hw).symm, rfl, rfl, fun rest => rfl⟩
  | cons st pre1 ih =>
    intro ds w hw hall
    cases hf : (refresh_progress_bar w st).freed with
    | true =>
      rw [poll_ticks_cons_freed ds i w st pre1 hw
        ((refresh_progress_bar_ret_of_freed w st).1 hf) hf] at hall
      simp [List.replicate_succ] at hall
    | false =>
      have hr := (refresh_progress_bar_ret_of_freed w st).2 hf
      have hc := poll_ticks_cons_kept ds i w st pre1 hw hr hf
      rw [hc] at hall
      simp only [List.length_cons, List.replicate_succ, List.cons.injEq, true_and] at hall
      obtain ⟨w1, h1, h2, h3, h4⟩ := ih
        { ds with refreshing_list := ds.refreshing_list.set i (refresh_progress_bar w st).state }
        (refresh_progress_bar w st).state (getElem?_set_of_getElem? _ _ _ _ hw) hall
      refine ⟨w1, ?_, ?_, ?_, ?_⟩
      · rw [hc]
        dsimp only
        rw [h1]
        simp
      · rw [h2, refresh_progress_bar_lock_file]
      · rw [h3, refresh_progress_bar_app_name]
      · intro rest
        rw [List.cons_append,
          poll_ticks_cons_kept ds i w st (pre1 ++ rest) hw hr hf, h4 rest, hc]
        rfl

/-- C5. A window with a lock file (whatever its flag, so also one that waits
for a change) that is still open after the earlier polls, sees the lock file
non-empty at poll N and empty at poll N+1: poll N returns `G_SOURCE_CONTINUE`
and leaves the window in its registry slot, poll N+1 returns `G_SOURCE_REMOVE`
and the window is torn down (it has left the registry, the other windows are
untouched). -/
theorem closes_when_lock_file_empties (ds : DsState) (i : Nat) (w : SdiRefreshState)
    (path : String) (pre : List StatResult) (n : Int)
    (hw : ds.refreshing_list[i]? = some w) (hl : w.lock_file = some path)
    (hpre : (poll_ticks ds i pre).1 = List.replicate pre.length .G_SOURCE_CONTINUE)
    (hn : n ≠ 0) :
    (poll_ticks ds i (pre ++ [.ok n])).1 = List.replicate (pre.length + 1) .G_SOURCE_CONTINUE ∧
    (∃ w1, (poll_ticks ds i (pre ++ [.ok n])).2.refreshing_list = ds.refreshing_list.set i w1 ∧
      w1.app_name = w.app_name) ∧
    (poll_ticks ds i (pre ++ [.ok n, .ok 0])).1
      = List.replicate (pre.length + 1) .G_SOURCE_CONTINUE ++ [.G_SOURCE_REMOVE] ∧
    (poll_ticks ds i (pre ++ [.ok n, .ok 0])).2 = refresh_state_free ds i := by
  obtain ⟨w1, h1, h2, h3, h4⟩ := poll_ticks_still_open i pre ds w hw hpre
  have hw1 : (poll_ticks ds i pre).2.refreshing_list[i]? = some w1 := by
    rw [h1]
    exact getElem?_set_of_getElem? _ _ _ _ hw
  have hl1 : w1.lock_file = some path := h2.trans hl
  have hN := refresh_progress_bar_change w1 (.ok n) path hl1 (by simpa [absent_or_empty] using hn)
  have hc := poll_ticks_cons_kept (poll_ticks ds i pre).2 i w1 (.ok n) [] hw1
    (by rw [hN]) (by rw [hN])
  have hw2 : (List.set (poll_ticks ds i pre).2.refreshing_list i
      (refresh_progress_bar w1 (.ok n)).state)[i]? = some (refresh_progress_bar w1 (.ok n)).state :=
    getElem?_set_of_getElem? _ _ _ _ hw1
  have hD := refresh_progress_bar_done (refresh_progress_bar w1 (.ok n)).state (.ok 0) path
    (by rw [refresh_progress_bar_lock_file, hl1]) (by rw [hN]) (by decide)
  have hc2 := poll_ticks_cons_kept (poll_ticks ds i pre).2 i w1 (.ok n) [.ok 0] hw1
    (by rw [hN]) (by rw [hN])
  have hc3 := poll_ticks_cons_freed
    { (poll_ticks ds i pre).2 with
      refreshing_list := (poll_ticks ds i pre).2.refreshing_list.set i
        (refresh_progress_bar w1 (.ok n)).state } i
    (refresh_progress_bar w1 (.ok n)).state (.ok 0) [] hw2 (by rw [hD]) (by rw [hD])
  refine ⟨?_, ⟨(refresh_progress_bar w1 (.ok n)).state, ?_, ?_⟩, ?_, ?_⟩
  · rw [h4 [.ok n], hc]
    simp [poll_ticks, List.replicate_succ']
  · rw [h4 [.ok n], hc]
    simp [poll_ticks, h1]
  · rw [refresh_progress_bar_app_name, h3]
  · rw [h4 [.ok n, .ok 0], hc2, hc3]
    simp [List.replicate_succ']
  · rw [h4 [.ok n, .ok 0], hc2, hc3]
    simp [refresh_state_free, h1, eraseIdx_set_same]

/-- C5 at a sample: the waiting `firefox` window sees no lock file, then 12
bytes, then an empty file. -/
theorem closes_when_lock_file_empties_witness :
    (poll_ticks waiting_registry 0 ([.error ENOENT] ++ [.ok 12])).1
      = List.replicate (1 + 1) .G_SOURCE_CONTINUE ∧
    (∃ w1, (poll_ticks waiting_registry 0 ([.error ENOENT] ++ [.ok 12])).2.refreshing_list
        = waiting_registry.refreshing_list.set 0 w1 ∧
      w1.app_name = "firefox") ∧
    (poll_ticks waiting_registry 0 ([.error ENOENT] ++ [.ok 12, .ok 0])).1
      = List.replicate (1 + 1) .G_SOURCE_CONTINUE ++ [.G_SOURCE_REMOVE] ∧
    (poll_ticks waiting_registry 0 ([.error ENOENT] ++ [.ok 12, .ok 0])).2
      = refresh_state_free waiting_registry 0 :=
  closes_when_lock_file_empties waiting_registry 0
    (handle_extra_params sample_env (new_refresh_window sample_env "firefox" "/run/lock")
      [("wait_change_in_lock_file", .boolean true)])
    "/run/lock" [.error ENOENT] 12 (by decide) (by decide) (by decide) (by decide)

/-! ## Lemmas: what clears the wait flag -/

theorem refresh_progress_bar_while_waiting (w : SdiRefreshState) (st : StatResult)
    (hwait : w.wait_change_in_lock_file = true) :
    (refresh_progress_bar w st).ret = .G_SOURCE_CONTINUE ∧
    (refresh_progress_bar w st).freed = false ∧
    (absent_or_empty st = true →
      (refresh_progress_bar w st).state.wait_change_in_lock_file = true) := by
  cases hl : w.lock_file with
  | none =>
    rw [refresh_progress_bar_no_lock_file w st hl]
    exact ⟨rfl, rfl, fun _ => (pulse_if_pulsed_frame w).2.2.trans hwait⟩
  | some path =>
    cases ha : absent_or_empty st with
    | true =>
      rw [refresh_progress_bar_waiting w st hwait ha]
      exact ⟨rfl, rfl, fun _ => (pulse_if_pulsed_frame w).2.2.trans hwait⟩
    | false =>
      rw [refresh_progress_bar_change w st path hl ha]
      exact ⟨rfl, rfl, fun h => by cases h⟩

theorem closes_only_after_change_of_waiting (i : Nat) :
    ∀ (obs : List StatResult) (ds : DsState) (w : SdiRefreshState),
      ds.refreshing_list[i]? = some w → w.wait_change_in_lock_file = true →
      closes_only_after_change ds i obs := by
  intro obs
  induction obs with
  | nil =>
    intro ds w _ _ k hk
    simp [poll_ticks] at hk
  | cons st rest ih =>
    intro ds w hw hwait k hk
    obtain ⟨hr, hf, hkeep⟩ := refresh_progress_bar_while_waiting w st hwait
    rw [poll_ticks_cons_kept ds i w st rest hw hr hf] at hk
    cases k with
    | zero => simp at hk
    | succ k1 =>
      simp only [List.getElem?_cons_succ] at hk
      cases ha : absent_or_empty st with
      | false => exact ⟨0, Nat.succ_pos _, st, by simp, ha⟩
      | true =>
        obtain ⟨j, hj, st1, hst1, hc⟩ := ih
          { ds with refreshing_list := ds.refreshing_list.set i (refresh_progress_bar w st).state }
          (refresh_progress_bar w st).state (getElem?_set_of_getElem? _ _ _ _ hw) (hkeep ha) k1 hk
        exact ⟨j + 1, Nat.succ_lt_succ hj, st1, by simpa using hst1, hc⟩

/-! ## Theorems: when a waiting window may close -/

/-- C6, as stated, fails: the `firefox` window is created with a lock file and
`wait_change_in_lock_file`; its first poll fails with `EACCES`, its second
with `ENOENT`.  The second poll closes the window although no poll saw the lock
file present and non-empty. -/
theorem closes_only_after_nonempty_fails :
    (∃ w, waiting_registry.refreshing_list[0]? = some w ∧ w.lock_file = some "/run/lock" ∧
      w.wait_change_in_lock_file = true) ∧
    poll_ticks waiting_registry 0 [.error EACCES, .error ENOENT]
      = ([.G_SOURCE_CONTINUE, .G_SOURCE_REMOVE], empty_registry) ∧
    ¬ closes_only_after_nonempty waiting_registry 0 [.error EACCES, .error ENOENT] := by
  refine ⟨⟨_, rfl, by decide, by decide⟩, by decide, ?_⟩
  intro h
  obtain ⟨j, hj, st, hst, hp⟩ := h 1 (by decide)
  have hj0 : j = 0 := by omega
  subst hj0
  simp only [List.getElem?_cons_zero, Option.some.injEq] at hst
  subst hst
  simp [present_nonempty] at hp

/-- C6, amended. A window that waits for a change in its lock file is closed
by a poll only after an earlier poll observed something other than "absent or
empty": the lock file present and non-empty, or a `stat` error other than
`ENOENT` and `ENOTDIR`. -/
theorem waiting_closes_only_after_change (ds : DsState) (i : Nat) (w : SdiRefreshState)
    (obs : List StatResult) (hw : ds.refreshing_list[i]? = some w)
    (hwait : w.wait_change_in_lock_file = true) :
    closes_only_after_change ds i obs :=
  closes_only_after_change_of_waiting i obs ds w hw hwait

/-- C6 amended, at the sample where the statement as given fails. -/
theorem waiting_closes_only_after_change_witness :
    closes_only_after_change waiting_registry 0 [.error EACCES, .error ENOENT] :=
  waiting_closes_only_after_change waiting_registry 0
    (handle_extra_params sample_env (new_refresh_window sample_env "firefox" "/run/lock")
      [("wait_change_in_lock_file", .boolean true)])
    [.error EACCES, .error ENOENT] (by decide) (by decide)

/-- C7. A poll whose `stat` fails with an errno other than `ENOENT` and
`ENOTDIR` does not close a window with a lock file, whatever its `pulsed` and
`wait_change_in_lock_file`: `refresh_progress_bar` returns `G_SOURCE_CONTINUE`
without calling `refresh_state_free`, and the window stays in its registry
slot under its name. -/
theorem other_stat_errors_keep_window (ds : DsState) (i : Nat) (w : SdiRefreshState)
    (path : String) (errno : Nat) (hw : ds.refreshing_list[i]? = some w)
    (hl : w.lock_file = some path) (h1 : errno ≠ ENOENT) (h2 : errno ≠ ENOTDIR) :
    (refresh_progress_bar w (.error errno)).ret = .G_SOURCE_CONTINUE ∧
    (refresh_progress_bar w (.error errno)).freed = false ∧
    timeout_dispatch ds i (.error errno) =
      some (.G_SOURCE_CONTINUE,
        { ds with
          refreshing_list := ds.refreshing_list.set i
            { pulse_if_pulsed w with wait_change_in_lock_file := false } }) ∧
    ({ pulse_if_pulsed w with wait_change_in_lock_file := false } : SdiRefreshState).app_name
      = w.app_name := by
  have hc := refresh_progress_bar_change w (.error errno) path hl
    (by simp [absent_or_empty, h1, h2])
  refine ⟨by rw [hc], by rw [hc], ?_, (pulse_if_pulsed_frame w).1⟩
  rw [timeout_dispatch_kept ds i w (.error errno) hw (by rw [hc]), hc]

/-- C7 at a sample: `stat` on the lock file of `firefox` fails with `EACCES`. -/
theorem other_stat_errors_keep_window_witness :
    (refresh_progress_bar sample_window (.error EACCES)).ret = .G_SOURCE_CONTINUE ∧
    (refresh_progress_bar sample_window (.error EACCES)).freed = false ∧
    timeout_dispatch sample_registry 1 (.error EACCES) =
      some (.G_SOURCE_CONTINUE,
        { sample_registry with
          refreshing_list := sample_registry.refreshing_list.set 1
            { pulse_if_pulsed sample_window with wait_change_in_lock_file := false } }) ∧
    ({ pulse_if_pulsed sample_window with wait_change_in_lock_file := false }
      : SdiRefreshState).app_name = sample_window.app_name :=
  other_stat_errors_keep_window sample_registry 1 sample_window "/run/lock" EACCES
    (by decide) (by decide) (by decide) (by decide)

/-! ## Theorems: the D-Bus handlers -/

/-- C8. Closing an application that has no window is a no-op: when no window
of the registry has the name, `handle_close_application_window` returns the
registry as it was, every window in it unchanged, whatever the params. -/
theorem close_unknown_is_noop (ds : DsState) (app_name : String)
    (extra_params : List (String × GVariant))
    (h : ∀ w ∈ ds.refreshing_list, w.app_name ≠ app_name) :
    handle_close_application_window app_name extra_params ds = ds := by
  have hf : find_application ds app_name = none := (find_application_from_none app_name _ 0).2 h
  unfold handle_close_application_window
  simp only [hf]

/-- C8 at a sample: `vlc` is closed while only `gimp` and `firefox` have
windows. -/
theorem close_unknown_is_noop_witness :
    (∀ w ∈ sample_registry.refreshing_list, w.app_name ≠ "vlc") ∧
    handle_close_application_window "vlc" [("message", .string "bye"), ("x", .int32 1)]
      sample_registry = sample_registry :=
  ⟨by decide,
   close_unknown_is_noop sample_registry "vlc" [("message", .string "bye"), ("x", .int32 1)]
     (by decide)⟩

/-- C9. `handle_set_percentage_progress` with `bar_text = ""` on an existing
window, whatever caption and mode it had: the window is replaced in its slot by
the params applied to the window with `pulsed = false`, the fraction equal to
`percent` as passed, the bar text shown and the caption cleared, and these four
hold of the window after the call. -/
theorem percentage_empty_text_clears_caption (env : Env) (app_name : String)
    (percent : gdouble) (extra_params : List (String × GVariant)) (ds : DsState) (i : Nat)
    (w : SdiRefreshState) (hf : find_application ds app_name = some i)
    (hw : ds.refreshing_list[i]? = some w) :
    ∃ w1,
      (handle_set_percentage_progress env app_name (some "") percent extra_params
        ds).refreshing_list = ds.refreshing_list.set i w1 ∧
      w1 = handle_extra_params env
        { w with
          pulsed := false,
          progress_bar :=
            { fraction := percent, show_text := true, text := none,
              pulses := w.progress_bar.pulses } } extra_params ∧
      w1.pulsed = false ∧
      w1.progress_bar.fraction = percent ∧
      w1.progress_bar.show_text = true ∧
      w1.progress_bar.text = none := by
  refine ⟨_, ?_, rfl, ?_, ?_, ?_, ?_⟩
  · unfold handle_set_percentage_progress
    simp only [hf]
    rw [modify_eq_set_of_getElem? _ _ i w hw]
    simp
  · rw [(handle_extra_params_frame env extra_params _).2.2.1]
  · rw [(handle_extra_params_frame env extra_params _).2.2.2.1]
  · rw [(handle_extra_params_frame env extra_params _).2.2.2.1]
  · rw [(handle_extra_params_frame env extra_params _).2.2.2.1]

/-- C9 at a sample: the pulsed `firefox` window with caption `half` gets an
empty caption and a percentage. -/
theorem percentage_empty_text_clears_caption_witness :
    ∃ w1,
      (handle_set_percentage_progress sample_env "firefox" (some "") { bits := 4611686018427387904 }
        [("title", .string "t")] sample_registry).refreshing_list
        = sample_registry.refreshing_list.set 1 w1 ∧
      w1 = handle_extra_params sample_env
        { sample_window with
          pulsed := false,
          progress_bar :=
            { fraction := { bits := 4611686018427387904 }, show_text := true, text := none,
              pulses := sample_window.progress_bar.pulses } } [("title", .string "t")] ∧
      w1.pulsed = false ∧
      w1.progress_bar.fraction = { bits := 4611686018427387904 } ∧
      w1.progress_bar.show_text = true ∧
      w1.progress_bar.text = none :=
  percentage_empty_text_clears_caption sample_env "firefox" { bits := 4611686018427387904 }
    [("title", .string "t")] sample_registry 1 sample_window (by decide) (by decide)

/-! ## Theorems: parameters -/

theorem handle_extra_param_unrecognized (env : Env) (state : SdiRefreshState)
    (entry : String × GVariant) (h : recognized_key entry.1 = false) :
    handle_extra_param env state entry = state := by
  simp only [recognized_key, Bool.or_eq_false_iff, decide_eq_false_iff_not] at h
  obtain ⟨⟨⟨⟨⟨h1, h2⟩, h3⟩, h4⟩, h5⟩, h6⟩ := h
  unfold handle_extra_param
  simp only [h1, h2, h3, h4, h5, h6, if_false]

theorem handle_extra_params_filter (env : Env) (extra_params : List (String × GVariant)) :
    ∀ state : SdiRefreshState,
      handle_extra_params env state extra_params =
        handle_extra_params env state (extra_params.filter (fun e => recognized_key e.1)) := by
  induction extra_params with
  | nil => intro state; rfl
  | cons entry rest ih =>
    intro state
    cases h : recognized_key entry.1 with
    | true =>
      simp only [handle_extra_params, List.foldl_cons, List.filter_cons, h, if_true] at ih ⊢
      exact ih _
    | false =>
      simp only [handle_extra_params, List.foldl_cons, List.filter_cons, h,
        handle_extra_param_unrecognized env state entry h] at ih ⊢
      simpa using ih state

/-- C10. Unrecognized keys are ignored: `handle_extra_params` gives the same
window as on the params with every entry removed whose key is not one of
`message`, `title`, `icon`, `icon_image`, `desktop_file`,
`wait_change_in_lock_file`; params with only unrecognized keys leave the
window as it is.  The function is total: it returns a window for every
input. -/
theorem unrecognized_keys_ignored (env : Env) (state : SdiRefreshState)
    (extra_params unknown : List (String × GVariant))
    (h : ∀ e ∈ unknown, recognized_key e.1 = false) :
    handle_extra_params env state extra_params =
      handle_extra_params env state (extra_params.filter (fun e => recognized_key e.1)) ∧
    handle_extra_params env state unknown = state := by
  refine ⟨handle_extra_params_filter env extra_params state, ?_⟩
  rw [handle_extra_params_filter env unknown state, List.filter_eq_nil_iff.2]
  · rfl
  · intro e he
    simp [h e he]

/-- C10 at a sample: `colour` and `Title` are not keys. -/
theorem unrecognized_keys_ignored_witness :
    (∀ e ∈ [("colour", GVariant.string "red"), ("Title", GVariant.int32 3)],
      recognized_key e.1 = false) ∧
    handle_extra_params sample_env sample_window
        [("colour", .string "red"), ("title", .string "t"), ("zz", .boolean true),
         ("desktop_file", .string "/app.desktop")] =
      handle_extra_params sample_env sample_window
        ([("colour", GVariant.string "red"), ("title", .string "t"), ("zz", .boolean true),
          ("desktop_file", .string "/app.desktop")].filter (fun e => recognized_key e.1)) ∧
    handle_extra_params sample_env sample_window
      [("colour", .string "red"), ("Title", .int32 3)] = sample_window :=
  ⟨by decide,
   unrecognized_keys_ignored sample_env sample_window
     [("colour", .string "red"), ("title", .string "t"), ("zz", .boolean true),
      ("desktop_file", .string "/app.desktop")]
     [("colour", .string "red"), ("Title", .int32 3)] (by decide)⟩

/-! ## Theorems: the empty icon name -/

theorem handle_extra_param_empty_icon (env : Env) (state : SdiRefreshState) :
    handle_extra_param env state ("icon", .string "") = hide_icon state := by
  simp [handle_extra_param, set_icon, g_variant_get_string, hide_icon]

theorem handle_extra_param_hide_icon (env : Env) (state : SdiRefreshState)
    (entry : String × GVariant) (h : icon_key entry.1 = false) :
    handle_extra_param env (hide_icon state) entry =
      hide_icon (handle_extra_param env state entry) := by
  simp only [icon_key, Bool.or_eq_false_iff, decide_eq_false_iff_not] at h
  obtain ⟨⟨h1, h2⟩, h3⟩ := h
  unfold handle_extra_param
  dsimp only
  simp only [h1, h2, h3, if_false]
  split_ifs
  · unfold set_message
    cases g_variant_get_string entry.2 <;> rfl
  · unfold set_title
    cases g_variant_get_string entry.2 <;> rfl
  · rfl
  · rfl

theorem handle_extra_params_hide_icon (env : Env) (after : List (String × GVariant))
    (h : ∀ e ∈ after, icon_key e.1 = false) :
    ∀ state : SdiRefreshState,
      handle_extra_params env (hide_icon state) after =
        hide_icon (handle_extra_params env state after) := by
  induction after with
  | nil => intro state; rfl
  | cons entry rest ih =>
    intro state
    have he := h entry (List.mem_cons_self _ _)
    have hr : ∀ e ∈ rest, icon_key e.1 = false := fun e m => h e (List.mem_cons_of_mem _ m)
    have step := ih hr (handle_extra_param env state entry)
    simp only [handle_extra_params, List.foldl_cons] at step ⊢
    rw [handle_extra_param_hide_icon env state entry he]
    exact step

theorem handle_extra_params_append (env : Env) (state : SdiRefreshState)
    (p q : List (String × GVariant)) :
    handle_extra_params env state (p ++ q) =
      handle_extra_params env (handle_extra_params env state p) q := by
  simp [handle_extra_params, List.foldl_append]

/-- C11, as stated, fails on the `firefox` window, whose icon is visible.
Both params below contain `icon = ""`.  With an `icon_image` entry after it
the icon is visible at the end; with a `title` entry next to it the icon is
hidden but the title has changed. -/
theorem empty_icon_claim_fails :
    (("icon", GVariant.string "") ∈
        [("icon", GVariant.string ""), ("icon_image", GVariant.string "/app.png")] ∧
      (handle_extra_params sample_env sample_window
        [("icon", .string ""), ("icon_image", .string "/app.png")]).icon.visible = true) ∧
    (("icon", GVariant.string "") ∈
        [("icon", GVariant.string ""), ("title", GVariant.string "t")] ∧
      (handle_extra_params sample_env sample_window
        [("icon", .string ""), ("title", .string "t")]).icon.visible = false ∧
      (handle_extra_params sample_env sample_window
        [("icon", .string ""), ("title", .string "t")]).window.title
        ≠ sample_window.window.title) ∧
    ¬ ∀ (env : Env) (state : SdiRefreshState) (extra_params : List (String × GVariant)),
        ("icon", GVariant.string "") ∈ extra_params →
        handle_extra_params env state extra_params = hide_icon state := by
  refine ⟨⟨by decide, by decide⟩, ⟨by decide, by decide, by decide⟩, ?_⟩
  intro h
  have e := h sample_env sample_window
    [("icon", .string ""), ("icon_image", .string "/app.png")] (by decide)
  have v := congrArg (fun s => s.icon.visible) e
  revert v
  decide

/-- C11, amended. For every window state, also one whose icon earlier params
made visible: when an entry `icon = ""` of the params is followed by no
`icon`, `icon_image` or `desktop_file` entry, the icon is hidden after the
params, and that entry changes nothing else: the window is the one the params
without the entry give, with the icon hidden.  Params whose only recognized
entry is `icon = ""` hide the icon and change no other field of the window. -/
theorem empty_icon_hides_when_last (env : Env) (state : SdiRefreshState)
    (before after only : List (String × GVariant))
    (h : ∀ e ∈ after, icon_key e.1 = false)
    (ho : only.filter (fun e => recognized_key e.1) = [("icon", .string "")]) :
    (handle_extra_params env state (before ++ [("icon", .string "")] ++ after)).icon.visible
      = false ∧
    handle_extra_params env state (before ++ [("icon", .string "")] ++ after) =
      hide_icon (handle_extra_params env state (before ++ after)) ∧
    handle_extra_params env state only = hide_icon state := by
  have main : handle_extra_params env state (before ++ [("icon", .string "")] ++ after) =
      hide_icon (handle_extra_params env state (before ++ after)) := by
    rw [handle_extra_params_append, handle_extra_params_append,
      handle_extra_params_append env state before after]
    have single : ∀ s, handle_extra_params env s [("icon", .string "")] = hide_icon s := by
      intro s
      simp only [handle_extra_params, List.foldl_cons, List.foldl_nil]
      exact handle_extra_param_empty_icon env s
    rw [single, handle_extra_params_hide_icon env after h]
  refine ⟨?_, main, ?_⟩
  · rw [main]
    rfl
  · rw [handle_extra_params_filter env only state, ho]
    simp only [handle_extra_params, List.foldl_cons, List.foldl_nil]
    exact handle_extra_param_empty_icon env state

/-- C11 amended, at a sample: the `firefox` window after `icon_image` showed
`/app.png`; `icon = ""` comes after another `icon_image` and before a
message. -/
theorem empty_icon_hides_when_last_witness :
    (handle_extra_params sample_env sample_window
      [("icon_image", .string "/app.png")]).icon.visible = true ∧
    (handle_extra_params sample_env
      (handle_extra_params sample_env sample_window [("icon_image", .string "/app.png")])
      ([("icon_image", .string "/x.png"), ("title", .string "t")] ++ [("icon", .string "")]
        ++ [("message", .string "m"), ("zz", .int32 1)])).icon.visible = false ∧
    handle_extra_params sample_env
      (handle_extra_params sample_env sample_window [("icon_image", .string "/app.png")])
      ([("icon_image", .string "/x.png"), ("title", .string "t")] ++ [("icon", .string "")]
        ++ [("message", .string "m"), ("zz", .int32 1)]) =
      hide_icon (handle_extra_params sample_env
        (handle_extra_params sample_env sample_window [("icon_image", .string "/app.png")])
        ([("icon_image", .string "/x.png"), ("title", .string "t")]
          ++ [("message", .string "m"), ("zz", .int32 1)])) ∧
    handle_extra_params sample_env
      (handle_extra_params sample_env sample_window [("icon_image", .string "/app.png")])
      [("zz", .int32 1), ("icon", .string "")] =
      hide_icon
        (handle_extra_params sample_env sample_window [("icon_image", .string "/app.png")]) :=
  ⟨by decide,
   empty_icon_hides_when_last sample_env
     (handle_extra_params sample_env sample_window [("icon_image", .string "/app.png")])
     [("icon_image", .string "/x.png"), ("title", .string "t")]
     [("message", .string "m"), ("zz", .int32 1)]
     [("zz", .int32 1), ("icon", .string "")] (by decide) (by decide)⟩

/-! ## Theorems: empty and absent lock files -/

theorem refresh_progress_bar_absent_or_empty (w : SdiRefreshState) (st : StatResult)
    (path : String) (hl : w.lock_file = some path) (hst : absent_or_empty st = true) :
    refresh_progress_bar w st =
      { ret := if w.wait_change_in_lock_file then .G_SOURCE_CONTINUE else .G_SOURCE_REMOVE,
        state := pulse_if_pulsed w,
        freed := !w.wait_change_in_lock_file } := by
  cases hwait : w.wait_change_in_lock_file with
  | true => rw [refresh_progress_bar_waiting w st hwait hst]; rfl
  | false => rw [refresh_progress_bar_done w st path hl hwait hst]; rfl

/-- C12. For a window with a lock file the poll tick treats a zero-size lock
file exactly as an absent one: `refresh_progress_bar` gives the same return
value, the same window fields and the same teardown decision for `stat`
succeeding with size 0 as for `stat` failing with `ENOENT` or with `ENOTDIR`,
and so does the registry.  In each case the window is closed
(`G_SOURCE_REMOVE`, `refresh_state_free` called, window out of the registry)
exactly when `wait_change_in_lock_file` is false; when it is true the tick
returns `G_SOURCE_CONTINUE`, the window stays in its slot and the flag is
still true. -/
theorem empty_lock_file_like_absent (ds : DsState) (i : Nat) (w : SdiRefreshState)
    (path : String) (hw : ds.refreshing_list[i]? = some w) (hl : w.lock_file = some path) :
    refresh_progress_bar w (.ok 0) = refresh_progress_bar w (.error ENOENT) ∧
    refresh_progress_bar w (.ok 0) = refresh_progress_bar w (.error ENOTDIR) ∧
    timeout_dispatch ds i (.ok 0) = timeout_dispatch ds i (.error ENOENT) ∧
    timeout_dispatch ds i (.ok 0) = timeout_dispatch ds i (.error ENOTDIR) ∧
    ((refresh_progress_bar w (.ok 0)).ret = .G_SOURCE_REMOVE ↔
      w.wait_change_in_lock_file = false) ∧
    ((refresh_progress_bar w (.ok 0)).freed = true ↔ w.wait_change_in_lock_file = false) ∧
    (w.wait_change_in_lock_file = false →
      timeout_dispatch ds i (.ok 0) = some (.G_SOURCE_REMOVE, refresh_state_free ds i)) ∧
    (w.wait_change_in_lock_file = true →
      (refresh_progress_bar w (.ok 0)).state.wait_change_in_lock_file = true ∧
      timeout_dispatch ds i (.ok 0) =
        some (.G_SOURCE_CONTINUE,
          { ds with refreshing_list := ds.refreshing_list.set i (pulse_if_pulsed w) })) := by
  have h0 := refresh_progress_bar_absent_or_empty w (.ok 0) path hl (by decide)
  have h1 := refresh_progress_bar_absent_or_empty w (.error ENOENT) path hl (by decide)
  have h2 := refresh_progress_bar_absent_or_empty w (.error ENOTDIR) path hl (by decide)
  have d : ∀ st st1 : StatResult, refresh_progress_bar w st = refresh_progress_bar w st1 →
      timeout_dispatch ds i st = timeout_dispatch ds i st1 := by
    intro st st1 e
    unfold timeout_dispatch
    simp only [hw, e]
  refine ⟨h0.trans h1.symm, h0.trans h2.symm, d _ _ (h0.trans h1.symm),
    d _ _ (h0.trans h2.symm), ?_, ?_, ?_, ?_⟩
  · rw [h0]
    cases w.wait_change_in_lock_file <;> simp
  · rw [h0]
    cases w.wait_change_in_lock_file <;> simp
  · intro hwait
    rw [timeout_dispatch_freed ds i w (.ok 0) hw (by rw [h0, hwait]; rfl), h0, hwait]
    rfl
  · intro hwait
    refine ⟨?_, ?_⟩
    · rw [h0]
      exact (pulse_if_pulsed_frame w).2.2.trans hwait
    · rw [timeout_dispatch_kept ds i w (.ok 0) hw (by rw [h0, hwait]; rfl), h0, hwait]
      rfl

/-- C12 at a sample: the `firefox` window, which has the lock file `/run/lock`
and waits for a change. -/
theorem empty_lock_file_like_absent_witness :
    refresh_progress_bar sample_window (.ok 0) = refresh_progress_bar sample_window (.error ENOENT) ∧
    refresh_progress_bar sample_window (.ok 0)
      = refresh_progress_bar sample_window (.error ENOTDIR) ∧
    timeout_dispatch sample_registry 1 (.ok 0) = timeout_dispatch sample_registry 1 (.error ENOENT) ∧
    timeout_dispatch sample_registry 1 (.ok 0)
      = timeout_dispatch sample_registry 1 (.error ENOTDIR) ∧
    ((refresh_progress_bar sample_window (.ok 0)).ret = .G_SOURCE_REMOVE ↔
      sample_window.wait_change_in_lock_file = false) ∧
    ((refresh_progress_bar sample_window (.ok 0)).freed = true ↔
      sample_window.wait_change_in_lock_file = false) ∧
    (sample_window.wait_change_in_lock_file = false →
      timeout_dispatch sample_registry 1 (.ok 0)
        = some (.G_SOURCE_REMOVE, refresh_state_free sample_registry 1)) ∧
    (sample_window.wait_change_in_lock_file = true →
      (refresh_progress_bar sample_window (.ok 0)).state.wait_change_in_lock_file = true ∧
      timeout_dispatch sample_registry 1 (.ok 0) =
        some (.G_SOURCE_CONTINUE,
          { sample_registry with
            refreshing_list :=
              sample_registry.refreshing_list.set 1 (pulse_if_pulsed sample_window) })) :=
  empty_lock_file_like_absent sample_registry 1 sample_window "/run/lock" (by decide) (by decide)

/-! ## Theorems: disposal -/

/-- C13, the code at a window `handle_application_is_being_refreshed` creates
(here in an empty registry, for any name, lock file and params): its
`timeout_id` is the id `g_timeout_add` returned but its `close_id` is still 0,
because the id `g_signal_connect` returns for `close-request` is not stored.
`sdi_refresh_state_dispose` therefore removes the timer source before
`gtk_window_destroy`, and never calls `g_signal_handler_disconnect`. -/
theorem dispose_skips_close_handler (env : Env) (app_name lock_file_path : String)
    (extra_params : List (String × GVariant)) :
    (handle_application_is_being_refreshed env app_name lock_file_path extra_params
      empty_registry).refreshing_list =
      [handle_extra_params env (new_refresh_window env app_name lock_file_path) extra_params] ∧
    (handle_extra_params env (new_refresh_window env app_name lock_file_path)
      extra_params).timeout_id = env.last_source_id + 1 ∧
    (handle_extra_params env (new_refresh_window env app_name lock_file_path)
      extra_params).close_id = 0 ∧
    sdi_refresh_state_dispose
      (handle_extra_params env (new_refresh_window env app_name lock_file_path) extra_params) =
      [.g_source_remove (env.last_source_id + 1), .g_free_lock_file, .g_free_app_name,
        .gtk_window_destroy, .parent_dispose] ∧
    ∀ id, DisposeAction.g_signal_handler_disconnect id ∉
      sdi_refresh_state_dispose
        (handle_extra_params env (new_refresh_window env app_name lock_file_path)
          extra_params) := by
  have ht : (handle_extra_params env (new_refresh_window env app_name lock_file_path)
      extra_params).timeout_id = env.last_source_id + 1 := by
    rw [(handle_extra_params_frame env extra_params _).2.2.2.2.2.1]
    rfl
  have hc : (handle_extra_params env (new_refresh_window env app_name lock_file_path)
      extra_params).close_id = 0 := by
    rw [(handle_extra_params_frame env extra_params _).2.2.2.2.2.2]
    rfl
  have hd : sdi_refresh_state_dispose
      (handle_extra_params env (new_refresh_window env app_name lock_file_path) extra_params) =
      [.g_source_remove (env.last_source_id + 1), .g_free_lock_file, .g_free_app_name,
        .gtk_window_destroy, .parent_dispose] := by
    unfold sdi_refresh_state_dispose
    rw [ht, hc]
    simp
  refine ⟨rfl, ht, hc, hd, ?_⟩
  intro id
  rw [hd]
  simp

end RefreshStatus
